import Mathlib

/-!
Verification of the raincoat-takehome-science swath pipeline.

The development shallowly embeds the core of the repository:
`path.py` (haversine distance and the Jelesnianski radial wind profile),
`data.py` (b-deck parsing, grid construction from a region of interest,
and the per-timestamp wind-field assembly).  Floating-point arithmetic of
the source is embedded as exact arithmetic over `ℝ` (for the wind model)
and `ℚ` (for parsing and grid construction); timestamps are embedded as
the natural number `YYYYMMDDHH`, which carries the same total order as
the parsed UTC instants.
-/

namespace Raincoat

/-- Embedding of `numpy.arctan2` (four-quadrant arctangent), as used by
`haversine_distance` in `path.py`. -/
noncomputable def arctan2 (y x : ℝ) : ℝ :=
  if 0 < x then Real.arctan (y / x)
  else if x < 0 then
    (if 0 ≤ y then Real.arctan (y / x) + Real.pi else Real.arctan (y / x) - Real.pi)
  else
    (if 0 < y then Real.pi / 2 else if y < 0 then -(Real.pi / 2) else 0)

/-- Embedding of `numpy.radians`: degrees to radians. -/
noncomputable def radians (x : ℝ) : ℝ := x * Real.pi / 180

/-- Embedding of `haversine_distance` from `path.py`: great-circle distance in
meters between two `(lat, lon)` points given in degrees, with mean Earth
radius 6,371,000 m. -/
noncomputable def haversine_distance (point1 point2 : ℝ × ℝ) : ℝ :=
  let lat1 := radians point1.1
  let lon1 := radians point1.2
  let lat2 := radians point2.1
  let lon2 := radians point2.2
  let earth_radius : ℝ := 6371000
  let d_lat := lat2 - lat1
  let d_lon := lon2 - lon1
  let a := Real.sin (d_lat / 2) ^ 2 +
    Real.cos lat1 * Real.cos lat2 * Real.sin (d_lon / 2) ^ 2
  let c := 2 * arctan2 (Real.sqrt a) (Real.sqrt (1 - a))
  earth_radius * c

/-- The scalar Jelesnianski (1965) wind profile applied elementwise by
`calculate_wind_at_given_distance` in `path.py` (lines 40-48): for a mask
`radius <= max_wind_radius` the value is
`max_wind * (radius/max_wind_radius)**(3/2)`, otherwise
`max_wind * (max_wind_radius/radius)**(1/2)`. -/
noncomputable def wind_speed (max_wind max_wind_radius radius : ℝ) : ℝ :=
  if radius ≤ max_wind_radius then
    max_wind * (radius / max_wind_radius) ^ ((3 : ℝ) / 2)
  else
    max_wind * (max_wind_radius / radius) ^ ((1 : ℝ) / 2)

/-- Embedding of `calculate_wind_at_given_distance` from `path.py`: the
haversine distance between the location and the storm centre fed through the
radial wind profile. -/
noncomputable def calculate_wind_at_given_distance
    (max_wind max_wind_radius : ℝ) (loc centre : ℝ × ℝ) : ℝ :=
  wind_speed max_wind max_wind_radius (haversine_distance loc centre)

/-- Strip leading and trailing blanks, as python `float` does on its input. -/
def trimList (cs : List Char) : List Char :=
  ((cs.dropWhile (· == ' ')).reverse.dropWhile (· == ' ')).reverse

/-- Value of a list of decimal digit characters. -/
def digitsVal (cs : List Char) : ℕ :=
  cs.foldl (fun n c => 10 * n + (c.toNat - 48)) 0

/-- Scan an unsigned decimal literal `digits[.digits]` into its integer
part, fractional part and fractional length. -/
def scanUnsigned (cs : List Char) : Option (ℕ × ℕ × ℕ) :=
  let ip := cs.takeWhile (· != '.')
  let rest := cs.dropWhile (· != '.')
  let fp := rest.drop 1
  if ip.all Char.isDigit && fp.all Char.isDigit && !(ip.isEmpty && fp.isEmpty) then
    some (digitsVal ip, digitsVal fp, fp.length)
  else none

/-- Scan an optionally signed decimal literal; the first component records
a leading minus sign. -/
def scanDecimal (cs : List Char) : Option (Bool × ℕ × ℕ × ℕ) :=
  match cs with
  | '-' :: rest => (scanUnsigned rest).map (fun t => (true, t))
  | '+' :: rest => (scanUnsigned rest).map (fun t => (false, t))
  | _ => (scanUnsigned cs).map (fun t => (false, t))

/-- The exact rational value of a scanned decimal literal. -/
def ratOfParts : Bool × ℕ × ℕ × ℕ → ℚ
  | (sign, ipv, fpv, fpl) =>
    let mag : ℚ := (ipv : ℚ) + (fpv : ℚ) / (10 : ℚ) ^ fpl
    if sign then -mag else mag

/-- Parse an optionally signed decimal literal as an exact rational. -/
def parseRatChars (cs : List Char) : Option ℚ :=
  (scanDecimal cs).map ratOfParts

/-- Numeric reading of one field, as pandas/python convert the numeric
b-deck columns before the unit normalization in `read_b_deck`. -/
def parseRat (s : String) : Option ℚ :=
  parseRatChars (trimList s.toList)

/-- Embedding of the `%Y%m%d%H` timestamp parse of `read_b_deck` (`data.py`
line 90): the combined date-hour token must be ten decimal digits; the
resulting natural number is ordered exactly like the UTC instant. -/
def parseTime (s : String) : Option ℕ :=
  let cs := trimList s.toList
  if cs.length == 10 && cs.all Char.isDigit then some (digitsVal cs) else none

/-- Embedding of `convert_lat_lon` from `read_b_deck` (`data.py` lines
94-100): `value = float(token[:-1]) / 10`, negated when the trailing
hemisphere character is `S` or `W`. -/
def convert_lat_lon (s : String) : Option ℚ := do
  let dir ← s.toList.getLast?
  let v ← parseRatChars (trimList s.toList.dropLast)
  let value := v / 10
  pure (if dir == 'S' || dir == 'W' then -value else value)

/-- Error taxonomy of the parse, following the kinds of failure
`read_b_deck` propagates (the `TypeError` on multiplying an object column
that holds an unconvertible numeric field, the timestamp `ValueError`,
and the position `ValueError`). -/
inductive ParseErr
  | MalformedRecord
  | InvalidTimestamp
  | InvalidCoordinate
deriving DecidableEq

/-- One normalized b-deck observation record (SI units), the data-model
record (section 3 of the design) the swath assembly consumes: by then the
timestamp, position, intensity and size are concrete numbers. -/
structure BRecord where
  time : ℕ
  lat : ℚ
  lon : ℚ
  vmax : ℚ
  rmw : ℚ
  speed : ℚ
  maxseas : ℚ
  seas : ℚ
  rad1 : ℚ
  rad2 : ℚ
  rad3 : ℚ
  rad4 : ℚ
  router : ℚ
deriving DecidableEq

/-- One row of the DataFrame `read_b_deck` returns, restricted to the
columns the core reads or converts.  pandas cells can hold missing values:
`none` models NaN in a numeric column (`na_values=""`, and rows with too
few fields are padded with NaN) and NaT in the timestamp column. -/
structure BRow where
  time : Option ℕ
  lat : ℚ
  lon : ℚ
  vmax : Option ℚ
  rmw : Option ℚ
  speed : Option ℚ
  maxseas : Option ℚ
  seas : Option ℚ
  rad1 : Option ℚ
  rad2 : Option ℚ
  rad3 : Option ℚ
  rad4 : Option ℚ
  router : Option ℚ
deriving DecidableEq

/-- Field `i` of a raw row (the b-deck schema indexes `b_deck_columns`).
A row with fewer fields yields the empty field, which pandas reads as a
missing value: short rows are padded, not rejected. -/
def field (row : List String) (i : ℕ) : String :=
  row.getD i ""

/-- The timestamp cell: an empty cell is a missing value (`NaT`, no
error); a nonempty cell must match `%Y%m%d%H` or `pd.to_datetime` raises
(`data.py` lines 89-92). -/
def parseTimeCell (s : String) : Except ParseErr (Option ℕ) :=
  if s = "" then .ok none
  else match parseTime s with
    | some t => .ok (some t)
    | none => .error .InvalidTimestamp

/-- A position cell: `convert_lat_lon` subscripts the cell, so a missing
or malformed position aborts with a `ValueError` (`data.py` lines
102-108); there is no missing-value escape here. -/
def parseCoord (s : String) : Except ParseErr ℚ :=
  match convert_lat_lon s with
  | some q => .ok q
  | none => .error .InvalidCoordinate

/-- A numeric cell: the empty cell is NaN (`na_values=""`, also the pad
value of short rows) and survives the unit conversion as NaN; a nonempty
cell that is not numeric makes the column an object column, and the unit
multiplication then raises a `TypeError` aborting the parse. -/
def parseCell (s : String) : Except ParseErr (Option ℚ) :=
  if s = "" then .ok none
  else match parseRat s with
    | some q => .ok (some q)
    | none => .error .MalformedRecord

/-- Parse and unit-normalize one raw row: timestamp, positions, then the
numeric columns with the conversion factors of `data.py` lines 110-115
(`VMAX * 0.514444`, `SPEED * 0.51444`, sea heights `* 0.3048`,
radii `* 1609.34`); NaN cells stay NaN through the conversion. -/
def parseBRow (row : List String) : Except ParseErr BRow :=
  match parseTimeCell (field row 2) with
  | .error e => .error e
  | .ok t =>
  match parseCoord (field row 6) with
  | .error e => .error e
  | .ok la =>
  match parseCoord (field row 7) with
  | .error e => .error e
  | .ok lo =>
  match parseCell (field row 8) with
  | .error e => .error e
  | .ok vmax =>
  match parseCell (field row 26) with
  | .error e => .error e
  | .ok speed =>
  match parseCell (field row 23) with
  | .error e => .error e
  | .ok maxseas =>
  match parseCell (field row 29) with
  | .error e => .error e
  | .ok seas =>
  match parseCell (field row 13) with
  | .error e => .error e
  | .ok rad1 =>
  match parseCell (field row 14) with
  | .error e => .error e
  | .ok rad2 =>
  match parseCell (field row 15) with
  | .error e => .error e
  | .ok rad3 =>
  match parseCell (field row 16) with
  | .error e => .error e
  | .ok rad4 =>
  match parseCell (field row 19) with
  | .error e => .error e
  | .ok rmw =>
  match parseCell (field row 18) with
  | .error e => .error e
  | .ok router =>
    .ok { time := t, lat := la, lon := lo,
          vmax := vmax.map (fun v => v * 0.514444),
          rmw := rmw.map (fun v => v * 1609.34),
          speed := speed.map (fun v => v * 0.51444),
          maxseas := maxseas.map (fun v => v * 0.3048),
          seas := seas.map (fun v => v * 0.3048),
          rad1 := rad1.map (fun v => v * 1609.34),
          rad2 := rad2.map (fun v => v * 1609.34),
          rad3 := rad3.map (fun v => v * 1609.34),
          rad4 := rad4.map (fun v => v * 1609.34),
          router := router.map (fun v => v * 1609.34) }

/-- Decidable equality of parse results. -/
instance exceptDecEq {ε α : Type} [DecidableEq ε] [DecidableEq α] :
    DecidableEq (Except ε α) := fun a b =>
  match a, b with
  | .error e1, .error e2 =>
    if h : e1 = e2 then isTrue (by rw [h])
    else isFalse (by intro hc; cases hc; exact h rfl)
  | .error _, .ok _ => isFalse (by intro hc; cases hc)
  | .ok _, .error _ => isFalse (by intro hc; cases hc)
  | .ok a1, .ok a2 =>
    if h : a1 = a2 then isTrue (by rw [h])
    else isFalse (by intro hc; cases hc; exact h rfl)

/-- All-or-nothing traversal: the whole parse aborts at the first failing
row, mirroring the exception propagation of `read_b_deck`. -/
def mapE {α β : Type} (f : α → Except ParseErr β) : List α → Except ParseErr (List β)
  | [] => .ok []
  | a :: as =>
    match f a with
    | .error e => .error e
    | .ok b =>
      match mapE f as with
      | .error e => .error e
      | .ok bs => .ok (b :: bs)

/-- Embedding of `read_b_deck` from `data.py`: the schema reads the first
36 comma-separated fields of every row (`usecols=range(36)`, extra
trailing fields ignored); rows with too few fields are padded with
missing values by pandas, not rejected.  Every row is then parsed and
unit-normalized, and any failure (bad timestamp, bad position, non-empty
non-numeric cell in a converted column) aborts the whole parse —
`logger.error_handle` always re-raises, and the conversion exceptions
propagate uncaught. -/
def read_b_deck (rows : List (List String)) : Except ParseErr (List BRow) :=
  mapE parseBRow rows

/-- `numpy.arange(start, stop, step)` in exact (real) arithmetic:
`max 0 ⌈(stop - start) / step⌉` points `start + i * step`.  The binary64
semantics the program actually computes with is `arange64` below; the two
differ where double rounding perturbs the point count. -/
def arange (start stop step : ℚ) : List ℚ :=
  (List.range (Int.toNat ⌈(stop - start) / step⌉)).map
    (fun (i : ℕ) => start + (i : ℚ) * step)

/-- The coordinate axes of the evaluation grid. -/
structure Grid where
  lats : List ℚ
  lons : List ℚ
deriving DecidableEq

/-- Embedding of `Dataset.from_roi` (`data.py` lines 135-171) in exact
arithmetic: latitude axis `arange(roi[0], roi[1] + res_lat, res_lat)`,
longitude axis `arange(roi[-2], roi[-1] + res_lon, res_lon)`.  The source
performs no validation of the region or the resolution; the only failing
input is a zero step, on which `numpy.arange` raises `ZeroDivisionError`. -/
def from_roi (min_lat max_lat min_lon max_lon res_lat res_lon : ℚ) : Option Grid :=
  if res_lat = 0 ∨ res_lon = 0 then none
  else some
    { lats := arange min_lat (max_lat + res_lat) res_lat
      lons := arange min_lon (max_lon + res_lon) res_lon }

/-- `sorted(b_deck["YYYYMMDDHH"].unique())` of `calculate_wind_profile`
(`data.py` line 176): the ascending list of distinct track timestamps. -/
def sortedTimes (b_deck : List BRecord) : List ℕ :=
  List.insertionSort (· ≤ ·) ((b_deck.map BRecord.time).dedup)

/-- `b_deck.loc[b_deck["YYYYMMDDHH"] == time].values[-1]`: the record that
drives the model at a timestamp is the last row, in input order, among the
rows carrying that timestamp. -/
def drivingRecord (b_deck : List BRecord) (time : ℕ) : Option BRecord :=
  (b_deck.filter (fun r => r.time == time)).getLast?

/-- The 2-D field of one timestep: the wind value of the driving record's
storm at every `(lat, lon)` grid point (`calculate_wind_speed` in
`data.py`, evaluated over `meshgrid(lat, lon, indexing="ij")`). -/
noncomputable def mkField (r : BRecord) (lats lons : List ℚ) : List (List ℝ) :=
  lats.map (fun (la : ℚ) => lons.map (fun (lo : ℚ) =>
    calculate_wind_at_given_distance (r.vmax : ℝ) (r.rmw : ℝ)
      ((la : ℝ), (lo : ℝ)) ((r.lat : ℝ), (r.lon : ℝ))))

/-- The field computed for one timestamp; the driving record always exists
because the timestamp comes from the track itself. -/
noncomputable def fieldAt (b_deck : List BRecord) (lats lons : List ℚ)
    (time : ℕ) : List (List ℝ) :=
  match drivingRecord b_deck time with
  | some r => mkField r lats lons
  | none => []

/-- The stacked wind field of `calculate_wind_profile`: one 2-D field per
distinct timestamp, stacked in ascending timestamp order (the task list is
built over `sorted(...unique())`, and `dask.array.stack` preserves that
order regardless of completion order). -/
noncomputable def windFields (b_deck : List BRecord) (lats lons : List ℚ) :
    List (List (List ℝ)) :=
  (sortedTimes b_deck).map (fieldAt b_deck lats lons)

/-- The dataset pieces that `calculate_wind_profile` attaches: the time
axis, the stacked wind field, and the two summary attributes. -/
structure ProfileOutput where
  time : List ℕ
  wsp : List (List (List ℝ))
  time_max : Option ℕ
  time_min : Option ℕ

/-- Embedding of `Dataset.calculate_wind_profile` (`data.py` lines
173-236): the sorted distinct timestamps become the time axis, the stacked
fields become `wsp`, and the attributes are set from the ends of the time
axis exactly as in the source — `time_max` from `time_index[0]` (line 235)
and `time_min` from `time_index[-1]` (line 236). -/
noncomputable def calculate_wind_profile (b_deck : List BRecord)
    (lats lons : List ℚ) : ProfileOutput :=
  let times := sortedTimes b_deck
  { time := times
    wsp := windFields b_deck lats lons
    time_max := times.head?
    time_min := times.getLast? }

/-- A complete 36-field raw b-deck row with raw `VMAX = 100` knots and raw
`SPEED = 100` knots. -/
def sampleRow : List String :=
  ["AL", "15", "2017091606", "", "BEST", "0", "175N", "655W", "100", "938",
   "HU", "34", "NEQ", "160", "140", "80", "110", "1012", "200", "25",
   "120", "20", "", "12", "", "260", "100", "MARIA", "D", "12",
   "NEQ", "120", "60", "0", "0", "genesis"]

/-- Build a record with the given timestamp, position, intensity and size;
the auxiliary fields are zero. -/
def mkRec (t : ℕ) (la lo v rm : ℚ) : BRecord :=
  ⟨t, la, lo, v, rm, 0, 0, 0, 0, 0, 0, 0, 0⟩

/-- Two-timestamp track used against the attribute contract. -/
def rowsC3 : List BRecord :=
  [mkRec 100 17.5 (-65.5) 10 5, mkRec 200 18 (-66) 20 6]

/-- Track with a duplicated timestamp (200) for the tie-break check. -/
def rowsC7 : List BRecord :=
  [mkRec 200 18 (-66) 10 5, mkRec 100 17.5 (-65.5) 20 6,
   mkRec 200 18.2 (-66.2) 30 7]

/-- Axes for the tie-break check. -/
def latsC7 : List ℚ := [17.5]

/-- Axes for the tie-break check. -/
def lonsC7 : List ℚ := [-65.5]

/-- Two-timestamp track with nonnegative `VMAX` and positive `RMW`. -/
def rowsC9 : List BRecord :=
  [mkRec 100 17.5 (-65.5) 10 5, mkRec 200 18 (-66) 20 6]

/-- A 3-point latitude axis. -/
def latsC9 : List ℚ := [17, 18, 19]

/-- A 3-point longitude axis. -/
def lonsC9 : List ℚ := [-67, -66, -65]

/-- At `radius = max_wind_radius` the profile returns `max_wind`. -/
theorem wind_speed_self (V R : ℝ) (hR : R ≠ 0) : wind_speed V R R = V := by
  unfold wind_speed
  rw [if_pos le_rfl, div_self hR, Real.one_rpow, mul_one]

/-- The profile is nonnegative for nonnegative inputs. -/
theorem wind_speed_nonneg (V R d : ℝ) (hV : 0 ≤ V) (hR : 0 ≤ R) (hd : 0 ≤ d) :
    0 ≤ wind_speed V R d := by
  unfold wind_speed
  split_ifs with h
  · exact mul_nonneg hV (Real.rpow_nonneg (div_nonneg hd hR) _)
  · exact mul_nonneg hV (Real.rpow_nonneg (div_nonneg hR hd) _)

/-- `arctan2 y x` is nonnegative whenever `y` is. -/
theorem arctan2_nonneg (y x : ℝ) (hy : 0 ≤ y) : 0 ≤ arctan2 y x := by
  unfold arctan2
  by_cases h1 : 0 < x
  · rw [if_pos h1]
    have h := Real.arctan_strictMono.monotone (div_nonneg hy h1.le)
    rwa [Real.arctan_zero] at h
  · rw [if_neg h1]
    by_cases h2 : x < 0
    · rw [if_pos h2, if_pos hy]
      have h := Real.neg_pi_div_two_lt_arctan (y / x)
      have hpi := Real.pi_pos
      linarith
    · rw [if_neg h2]
      by_cases h3 : 0 < y
      · rw [if_pos h3]
        positivity
      · rw [if_neg h3, if_neg (not_lt.mpr hy)]

/-- The haversine distance is always nonnegative. -/
theorem haversine_distance_nonneg (point1 point2 : ℝ × ℝ) :
    0 ≤ haversine_distance point1 point2 := by
  unfold haversine_distance
  have h := arctan2_nonneg
    (Real.sqrt (Real.sin ((radians point2.1 - radians point1.1) / 2) ^ 2 +
      Real.cos (radians point1.1) * Real.cos (radians point2.1) *
        Real.sin ((radians point2.2 - radians point1.2) / 2) ^ 2))
    (Real.sqrt (1 - (Real.sin ((radians point2.1 - radians point1.1) / 2) ^ 2 +
      Real.cos (radians point1.1) * Real.cos (radians point2.1) *
        Real.sin ((radians point2.2 - radians point1.2) / 2) ^ 2)))
    (Real.sqrt_nonneg _)
  positivity

/-- C1: for max_wind `V > 0`, max_wind_radius `R > 0` and distance `d ≥ 0`,
the wind model returns `V * (d/R)^1.5` when `d ≤ R` and `V * (R/d)^0.5`
when `d > R`, and both branch formulas equal `V` exactly at `d = R`. -/
theorem wind_speed_piecewise_continuous (V R d : ℝ)
    (hV : 0 < V) (hR : 0 < R) (hd : 0 ≤ d) :
    (d ≤ R → wind_speed V R d = V * (d / R) ^ ((3 : ℝ) / 2)) ∧
    (R < d → wind_speed V R d = V * (R / d) ^ ((1 : ℝ) / 2)) ∧
    wind_speed V R R = V ∧
    V * (R / R) ^ ((3 : ℝ) / 2) = V ∧
    V * (R / R) ^ ((1 : ℝ) / 2) = V := by
  refine ⟨fun h => ?_, fun h => ?_, wind_speed_self V R hR.ne', ?_, ?_⟩
  · unfold wind_speed; rw [if_pos h]
  · unfold wind_speed; rw [if_neg (not_le.mpr h)]
  · rw [div_self hR.ne', Real.one_rpow, mul_one]
  · rw [div_self hR.ne', Real.one_rpow, mul_one]

/-- Closed witness for C1 at `V = 2`, `R = 1`, `d = 1`. -/
theorem wind_speed_piecewise_continuous_witness :
    ((1 : ℝ) ≤ 1 → wind_speed 2 1 1 = 2 * ((1 : ℝ) / 1) ^ ((3 : ℝ) / 2)) ∧
    ((1 : ℝ) < 1 → wind_speed 2 1 1 = 2 * ((1 : ℝ) / 1) ^ ((1 : ℝ) / 2)) ∧
    wind_speed 2 1 1 = 2 ∧
    (2 : ℝ) * ((1 : ℝ) / 1) ^ ((3 : ℝ) / 2) = 2 ∧
    (2 : ℝ) * ((1 : ℝ) / 1) ^ ((1 : ℝ) / 2) = 2 :=
  wind_speed_piecewise_continuous 2 1 1 (by norm_num) (by norm_num) (by norm_num)

/-- C2: for `V > 0` and `R > 0` the profile is strictly increasing in the
distance on `0 ≤ r < R`, strictly decreasing for `r > R`, and its unique
maximum over `r ≥ 0` is attained at `r = R`. -/
theorem wind_speed_peak_at_radius (V R : ℝ) (hV : 0 < V) (hR : 0 < R) :
    (∀ r1 r2, 0 ≤ r1 → r1 < r2 → r2 < R →
      wind_speed V R r1 < wind_speed V R r2) ∧
    (∀ r1 r2, R < r1 → r1 < r2 →
      wind_speed V R r2 < wind_speed V R r1) ∧
    (∀ r, 0 ≤ r → r ≠ R → wind_speed V R r < wind_speed V R R) := by
  refine ⟨fun r1 r2 h0 h12 h2R => ?_, fun r1 r2 hR1 h12 => ?_, fun r h0 hne => ?_⟩
  · unfold wind_speed
    rw [if_pos (le_of_lt (h12.trans h2R)), if_pos h2R.le]
    refine mul_lt_mul_of_pos_left ?_ hV
    exact Real.rpow_lt_rpow (div_nonneg h0 hR.le)
      ((div_lt_div_iff_of_pos_right hR).mpr h12) (by norm_num)
  · have hr1 : 0 < r1 := hR.trans hR1
    unfold wind_speed
    rw [if_neg (not_le.mpr hR1), if_neg (not_le.mpr (hR1.trans h12))]
    refine mul_lt_mul_of_pos_left ?_ hV
    exact Real.rpow_lt_rpow (div_nonneg hR.le (hr1.trans h12).le)
      (div_lt_div_of_pos_left hR hr1 h12) (by norm_num)
  · rw [wind_speed_self V R hR.ne']
    rcases lt_or_gt_of_ne hne with h | h
    · unfold wind_speed
      rw [if_pos h.le]
      have h1 : (r / R) ^ ((3 : ℝ) / 2) < 1 :=
        Real.rpow_lt_one (div_nonneg h0 hR.le) ((div_lt_one hR).mpr h) (by norm_num)
      calc V * (r / R) ^ ((3 : ℝ) / 2) < V * 1 := mul_lt_mul_of_pos_left h1 hV
        _ = V := mul_one V
    · unfold wind_speed
      rw [if_neg (not_le.mpr h)]
      have h1 : (R / r) ^ ((1 : ℝ) / 2) < 1 :=
        Real.rpow_lt_one (div_nonneg hR.le (hR.trans h).le)
          ((div_lt_one (hR.trans h)).mpr h) (by norm_num)
      calc V * (R / r) ^ ((1 : ℝ) / 2) < V * 1 := mul_lt_mul_of_pos_left h1 hV
        _ = V := mul_one V

/-- Closed witness for C2 at `V = 3`, `R = 2`, applied at sample distances. -/
theorem wind_speed_peak_at_radius_witness :
    wind_speed 3 2 1 < wind_speed 3 2 (3 / 2) ∧
    wind_speed 3 2 5 < wind_speed 3 2 4 ∧
    wind_speed 3 2 1 < wind_speed 3 2 2 := by
  have h := wind_speed_peak_at_radius 3 2 (by norm_num) (by norm_num)
  exact ⟨h.1 1 (3 / 2) (by norm_num) (by norm_num) (by norm_num),
    h.2.1 4 5 (by norm_num) (by norm_num),
    h.2.2 1 (by norm_num) (by norm_num)⟩

/-- C10: under the precondition `max_wind_radius > 0` the wind model is
total: the inside branch divides only by `max_wind_radius ≠ 0`, the
outside branch divides only by distances `d > max_wind_radius`, which are
nonzero; distance `0` falls into the inside branch (`0 ≤ R`) and the model
value at the storm centre is `0`. -/
theorem wind_speed_total (V R : ℝ) (hR : 0 < R) :
    R ≠ 0 ∧ (∀ d, R < d → d ≠ 0) ∧ ((0 : ℝ) ≤ R) ∧ wind_speed V R 0 = 0 := by
  refine ⟨hR.ne', fun d hd => (hR.trans hd).ne', hR.le, ?_⟩
  unfold wind_speed
  rw [if_pos hR.le, zero_div, Real.zero_rpow (by norm_num), mul_zero]

/-- Closed witness for C10 at `V = 1`, `R = 2`. -/
theorem wind_speed_total_witness :
    (2 : ℝ) ≠ 0 ∧ (∀ d, (2 : ℝ) < d → d ≠ 0) ∧ ((0 : ℝ) ≤ 2) ∧
      wind_speed 1 2 0 = 0 :=
  wind_speed_total 1 2 (by norm_num)

/-- C3: on the two-timestamp track `rowsC3` (timestamps 100 < 200) the
assembled dataset binds `time_min` to the LATEST timestamp and `time_max`
to the EARLIEST, the opposite of the claimed contract: `data.py` line 235
writes `time_index[0]` into `time_max` and line 236 writes `time_index[-1]`
into `time_min`, with `time_index` sorted ascending. -/
theorem time_attrs_swapped :
    sortedTimes rowsC3 = [100, 200] ∧
    (calculate_wind_profile rowsC3 [17.5] [-65.5]).time_min = some 200 ∧
    (calculate_wind_profile rowsC3 [17.5] [-65.5]).time_max = some 100 ∧
    (calculate_wind_profile rowsC3 [17.5] [-65.5]).time_min ≠ some 100 :=
  ⟨by decide, by decide, by decide, by decide⟩

/-- C4: the parser does NOT apply one shared knots-to-m/s factor: on a raw
row with `VMAX = 100` and `SPEED = 100` the normalized values are
`100 * 0.514444 = 51.4444` and `100 * 0.51444 = 51.444`, which differ
(`data.py` lines 110-111 use two different literals). -/
theorem unit_conversion_drift :
    (read_b_deck [sampleRow]).map (fun recs => recs.map (fun r => (r.vmax, r.speed))) =
      .ok [((some (51.4444 : ℚ) : Option ℚ), (some (51.444 : ℚ) : Option ℚ))] ∧
    (51.4444 : ℚ) ≠ (51.444 : ℚ) := by
  have h2 : parseTimeCell (field sampleRow 2) = .ok (some 2017091606) := by decide
  have hlat : parseCoord (field sampleRow 6) =
      .ok (ratOfParts (false, 175, 0, 0) / 10) := rfl
  have hlon : parseCoord (field sampleRow 7) =
      .ok (-(ratOfParts (false, 655, 0, 0) / 10)) := rfl
  have h8 : parseCell (field sampleRow 8) =
      .ok (some (ratOfParts (false, 100, 0, 0))) := rfl
  have h26 : parseCell (field sampleRow 26) =
      .ok (some (ratOfParts (false, 100, 0, 0))) := rfl
  have h23 : parseCell (field sampleRow 23) =
      .ok (some (ratOfParts (false, 12, 0, 0))) := rfl
  have h29 : parseCell (field sampleRow 29) =
      .ok (some (ratOfParts (false, 12, 0, 0))) := rfl
  have h13 : parseCell (field sampleRow 13) =
      .ok (some (ratOfParts (false, 160, 0, 0))) := rfl
  have h14 : parseCell (field sampleRow 14) =
      .ok (some (ratOfParts (false, 140, 0, 0))) := rfl
  have h15 : parseCell (field sampleRow 15) =
      .ok (some (ratOfParts (false, 80, 0, 0))) := rfl
  have h16 : parseCell (field sampleRow 16) =
      .ok (some (ratOfParts (false, 110, 0, 0))) := rfl
  have h19 : parseCell (field sampleRow 19) =
      .ok (some (ratOfParts (false, 25, 0, 0))) := rfl
  have h18 : parseCell (field sampleRow 18) =
      .ok (some (ratOfParts (false, 200, 0, 0))) := rfl
  constructor
  · unfold read_b_deck
    simp only [mapE, parseBRow, h2, hlat, hlon, h8, h26, h23, h29, h13, h14, h15, h16,
      h19, h18, Except.map, List.map_cons, List.map_nil, Option.map_some]
    norm_num [ratOfParts]
  · norm_num

/-- C5: grid construction performs no region/resolution validation: for a
region of interest with `min_lat > max_lat` (and also for a negative
latitude resolution) `from_roi` still returns a grid — with an empty
latitude axis — instead of failing with an `InvalidRegion` error. -/
theorem from_roi_no_validation :
    (from_roi 18.5 17.5 (-67.5) (-65.5) 0.1 0.1).map Grid.lats = some [] ∧
    (from_roi 18.5 17.5 (-67.5) (-65.5) 0.1 0.1).isSome = true ∧
    (from_roi 17.5 18.5 (-67.5) (-65.5) (-0.1) 0.1).isSome = true := by
  unfold from_roi
  rw [if_neg (by norm_num), if_neg (by norm_num)]
  have h1 : (⌈(((17.5 : ℚ) + 0.1) - 18.5) / (0.1 : ℚ)⌉ : ℤ) = -9 := by
    rw [show (((17.5 : ℚ) + 0.1) - 18.5) / (0.1 : ℚ) = (((-9 : ℤ)) : ℚ) by norm_num,
      Int.ceil_intCast]
  have h0 : (-9 : ℤ).toNat = 0 := rfl
  refine ⟨?_, rfl, rfl⟩
  simp only [arange, h1, h0, List.range_zero, List.map_nil]
  rfl

/-- The sorted distinct timestamps are strictly sorted. -/
theorem sortedTimes_sorted (b_deck : List BRecord) :
    List.Sorted (· < ·) (sortedTimes b_deck) :=
  (List.sorted_insertionSort _ _).lt_of_le
    ((List.perm_insertionSort _ _).nodup_iff.mpr (List.nodup_dedup _))

/-- The sorted distinct timestamps are exactly the track's timestamps. -/
theorem sortedTimes_mem (b_deck : List BRecord) (x : ℕ) :
    x ∈ sortedTimes b_deck ↔ ∃ r ∈ b_deck, r.time = x := by
  unfold sortedTimes
  rw [(List.perm_insertionSort _ _).mem_iff, List.mem_dedup, List.mem_map]

/-- The last element of a list is a member. -/
theorem getLast?_mem_of_eq {A : Type} {l : List A} {x : A}
    (h : l.getLast? = some x) : x ∈ l := by
  obtain ⟨hne, rfl⟩ := List.mem_getLast?_eq_getLast (Option.mem_def.mpr h)
  exact List.getLast_mem hne

/-- Every timestamp present in the track has a driving record, taken from
the track and carrying that timestamp. -/
theorem drivingRecord_mem (b_deck : List BRecord) (tm : ℕ)
    (h : ∃ r0 ∈ b_deck, r0.time = tm) :
    ∃ r, drivingRecord b_deck tm = some r ∧ r ∈ b_deck ∧ r.time = tm := by
  obtain ⟨r0, hr0, ht0⟩ := h
  have hmem : r0 ∈ b_deck.filter (fun r => r.time == tm) :=
    List.mem_filter.mpr ⟨hr0, by simp [ht0]⟩
  have hne : b_deck.filter (fun r => r.time == tm) ≠ [] := List.ne_nil_of_mem hmem
  obtain ⟨r, hr⟩ : ∃ r, (b_deck.filter (fun r => r.time == tm)).getLast? = some r :=
    ⟨_, List.getLast?_eq_getLast_of_ne_nil hne⟩
  refine ⟨r, hr, ?_, ?_⟩
  · exact (List.mem_filter.mp (getLast?_mem_of_eq hr)).1
  · have h2 := (List.mem_filter.mp (getLast?_mem_of_eq hr)).2
    simpa using h2

/-- The driving record of a timestamp is the last row, in input order,
among the rows carrying that timestamp. -/
theorem drivingRecord_last (b_deck l1 l2 : List BRecord) (r : BRecord)
    (hsplit : b_deck = l1 ++ r :: l2) (hl2 : ∀ r2 ∈ l2, r2.time ≠ r.time) :
    drivingRecord b_deck r.time = some r := by
  subst hsplit
  unfold drivingRecord
  rw [List.filter_append]
  have hnil : l2.filter (fun x => x.time == r.time) = [] :=
    List.filter_eq_nil_iff.mpr (fun a ha => by simpa using hl2 a ha)
  have h2 : (r :: l2).filter (fun x => x.time == r.time) = [r] := by
    simp [List.filter_cons, hnil]
  rw [h2, List.getLast?_concat]

/-- C7: the time axis of the assembled profile is the strictly sorted list
of exactly the track's distinct timestamps; the field stacked at index `t`
is the field of the `t`-th smallest distinct timestamp; and for every
timestamp the driving record is the last row in input order among the rows
sharing it, its `VMAX`, `RMW`, `Lat`, `Lon` feeding the model. -/
theorem wind_profile_order_and_tiebreak (b_deck : List BRecord)
    (lats lons : List ℚ) (t : ℕ) (ht : t < (sortedTimes b_deck).length) :
    List.Sorted (· < ·) (sortedTimes b_deck) ∧
    (∀ x, x ∈ sortedTimes b_deck ↔ ∃ r ∈ b_deck, r.time = x) ∧
    (windFields b_deck lats lons).getD t [] =
      fieldAt b_deck lats lons ((sortedTimes b_deck).getD t 0) ∧
    (∀ l1 r l2, b_deck = l1 ++ r :: l2 → (∀ r2 ∈ l2, r2.time ≠ r.time) →
      drivingRecord b_deck r.time = some r ∧
      fieldAt b_deck lats lons r.time = mkField r lats lons) := by
  refine ⟨sortedTimes_sorted b_deck, fun x => sortedTimes_mem b_deck x, ?_, ?_⟩
  · unfold windFields
    have hlen : t < ((sortedTimes b_deck).map (fieldAt b_deck lats lons)).length := by
      simpa using ht
    rw [List.getD_eq_getElem _ _ hlen, List.getD_eq_getElem _ _ ht, List.getElem_map]
  · intro l1 r l2 hsplit hl2
    have hdr := drivingRecord_last b_deck l1 l2 r hsplit hl2
    have hfa : fieldAt b_deck lats lons r.time = mkField r lats lons := by
      unfold fieldAt
      rw [hdr]
    exact ⟨hdr, hfa⟩

/-- Closed witness for C7 on `rowsC7`, whose timestamp 200 appears twice. -/
theorem wind_profile_order_and_tiebreak_witness :
    List.Sorted (· < ·) (sortedTimes rowsC7) ∧
    (∀ x, x ∈ sortedTimes rowsC7 ↔ ∃ r ∈ rowsC7, r.time = x) ∧
    (windFields rowsC7 latsC7 lonsC7).getD 0 [] =
      fieldAt rowsC7 latsC7 lonsC7 ((sortedTimes rowsC7).getD 0 0) ∧
    (∀ l1 r l2, rowsC7 = l1 ++ r :: l2 → (∀ r2 ∈ l2, r2.time ≠ r.time) →
      drivingRecord rowsC7 r.time = some r ∧
      fieldAt rowsC7 latsC7 lonsC7 r.time = mkField r latsC7 lonsC7) :=
  wind_profile_order_and_tiebreak rowsC7 latsC7 lonsC7 0 (by decide)

/-- C9: for a track of records with nonnegative `VMAX` and positive `RMW`
the assembled wind field is dense of shape (distinct timestamps, latitude
points, longitude points) and every value in it is nonnegative. -/
theorem wind_field_shape_nonneg (b_deck : List BRecord) (lats lons : List ℚ)
    (h : ∀ r ∈ b_deck, 0 ≤ r.vmax ∧ 0 < r.rmw) :
    (windFields b_deck lats lons).length = (sortedTimes b_deck).length ∧
    ∀ f ∈ windFields b_deck lats lons,
      f.length = lats.length ∧
      ∀ row ∈ f, row.length = lons.length ∧ ∀ v ∈ row, 0 ≤ v := by
  constructor
  · simp [windFields]
  · intro f hf
    obtain ⟨tm, htm, rfl⟩ := List.mem_map.mp hf
    obtain ⟨r, hdr, hrmem, _⟩ :=
      drivingRecord_mem b_deck tm ((sortedTimes_mem b_deck tm).mp htm)
    have hfa : fieldAt b_deck lats lons tm = mkField r lats lons := by
      unfold fieldAt
      rw [hdr]
    rw [hfa]
    unfold mkField
    constructor
    · simp
    · intro row hrow
      obtain ⟨la, hla, rfl⟩ := List.mem_map.mp hrow
      constructor
      · simp
      · intro v hv
        obtain ⟨lo, hlo, rfl⟩ := List.mem_map.mp hv
        unfold calculate_wind_at_given_distance
        refine wind_speed_nonneg _ _ _ ?_ ?_ (haversine_distance_nonneg _ _)
        · exact_mod_cast (h r hrmem).1
        · have h3 : (0 : ℚ) < r.rmw := (h r hrmem).2
          have h4 : (0 : ℝ) < (r.rmw : ℝ) := by exact_mod_cast h3
          exact h4.le

/-- Closed witness for C9: two distinct timestamps on a 3 by 3 grid give
shape (2, 3, 3). -/
theorem wind_field_shape_nonneg_witness :
    ((windFields rowsC9 latsC9 lonsC9).length = (sortedTimes rowsC9).length ∧
      ∀ f ∈ windFields rowsC9 latsC9 lonsC9,
        f.length = latsC9.length ∧
        ∀ row ∈ f, row.length = lonsC9.length ∧ ∀ v ∈ row, 0 ≤ v) ∧
    (sortedTimes rowsC9).length = 2 ∧ latsC9.length = 3 ∧ lonsC9.length = 3 :=
  ⟨wind_field_shape_nonneg rowsC9 latsC9 lonsC9 (by decide), by decide, rfl, rfl⟩

end Raincoat
